import Mathlib

/-!
A shallow embedding of the virtual address-space manager of the Grätz.OS
kernel (src/src/kernel).  Machine words are modelled as `Nat` with explicit
masking (`% 2 ^ 32`, `&&&`) where the 32-bit source code truncates.  Fallible
operations (whose C source contains `assert`/`halt`) return `Option` or a
dedicated outcome type; `none`/`halted` models the verbose-build behaviour
in which a failed assertion prints and halts (spec section 7).
-/

namespace GraetzOS

/-- invalidPtr: the typed invalid pointer `(C*)-1` (kernel.hpp), i.e.
`0xFFFFFFFF` on the 32-bit targets. -/
def invalidPtr : Nat := 2 ^ 32 - 1

/-- PAGESIZE: the size of a memory page in bytes (AddressSpace.i386.cpp). -/
def PAGESIZE : Nat := 4096

/-- LARGEPAGESIZE: the size of a large memory page (AddressSpace.i386.cpp):
`PAGESIZE * 1024` = 4 MiB. -/
def LARGEPAGESIZE : Nat := PAGESIZE * 1024

/-- PA_PRESENT (i386 page attribute): physically present in memory. -/
def PA_PRESENT : Nat := 1

/-- PA_WRITABLE (i386 page attribute): write access allowed. -/
def PA_WRITABLE : Nat := 2

/-- PA_RING0 (i386 page attribute): accessible by user code. -/
def PA_RING0 : Nat := 4

/-- PA_4MBYTE (i386 page attribute): directory entry describes a 4 MiB page
instead of a page table. -/
def PA_4MBYTE : Nat := 128

/-- PA_GLOBAL (i386 page attribute): entry is not updated when a new
directory is loaded. -/
def PA_GLOBAL : Nat := 256

namespace PageTableEntryI386

/-- PageTableEntry::isEmpty (PageTableEntry.i386.cpp):
`(data & PA_PRESENT) == 0`. -/
def isEmpty (data : Nat) : Bool := data &&& PA_PRESENT == 0

/-- PageTableEntry::getPhysicalAddress (PageTableEntry.i386.cpp):
`(void*)(data & 0xFFFFF000)`. -/
def getPhysicalAddress (data : Nat) : Nat := data &&& 0xFFFFF000

/-- PageTableEntry::setPhysicalAddress (PageTableEntry.i386.cpp).
Asserts that the entry is not empty and that `addr` is 4K-aligned, then
stores `(data & 0x00000FFF) | value`.  `none` models a failed assertion. -/
def setPhysicalAddress (data addr : Nat) : Option Nat :=
  if isEmpty data then none
  else if (addr &&& 0xFFFFF000) == addr then some ((data &&& 0x00000FFF) ||| addr)
  else none

/-- PageTableEntry::set (PageTableEntry.i386.cpp).  The C source reads the
uninitialized variable in its own initializer:
`uintptr_t value = (uintptr_t)value | PA_PRESENT;` — the parameter `addr`
is never used.  The indeterminate initial contents of `value` are modelled
by the explicit `garbage` argument.  The source then asserts `isEmpty()`
and `(value & 0xFFFFF000) == value`, ors in the attribute flags and stores
`value`.  `none` models a failed assertion. -/
def set (garbage data addr : Nat) (write user global : Bool)
    (level : Nat) : Option Nat :=
  let value := garbage ||| PA_PRESENT
  if !isEmpty data then none
  else if !((value &&& 0xFFFFF000) == value) then none
  else
    let v1 := if global then value ||| PA_GLOBAL else value
    let v2 := if user then v1 ||| PA_RING0 else v1
    let v3 := if write then v2 ||| PA_WRITABLE else v2
    some v3

end PageTableEntryI386

namespace PageTableEntryRpi

/-- PA_INVALID (armv7 page attribute): invalid page table entry. -/
def PA_INVALID : Nat := 0

/-- PA_COARSE (armv7 page attribute): coarse page table with 256 entries. -/
def PA_COARSE : Nat := 1

/-- PA_TYPE_MASK (armv7 page attribute): masks the page type. -/
def PA_TYPE_MASK : Nat := 3

/-- PageTableEntry::isEmpty (PageTableEntry.rpi.cpp):
`(data & PA_TYPE_MASK) == PA_INVALID`. -/
def isEmpty (data : Nat) : Bool := data &&& PA_TYPE_MASK == PA_INVALID

/-- PageTableEntry::getPhysicalAddress (PageTableEntry.rpi.cpp): for a
coarse entry, `data & 0xFFFFFC00`; every other type yields `invalidPtr`. -/
def getPhysicalAddress (data : Nat) : Nat :=
  if data &&& PA_TYPE_MASK == PA_COARSE then data &&& 0xFFFFFC00 else invalidPtr

/-- PageTableEntry::setPhysicalAddress (PageTableEntry.rpi.cpp): for a
coarse entry, asserts 1K-alignment and stores `(data & 0x000003FF) | value`;
every other type hits `assert(false)` (modelled as `none`). -/
def setPhysicalAddress (data addr : Nat) : Option Nat :=
  if data &&& PA_TYPE_MASK == PA_COARSE then
    if (addr &&& 0xFFFFFC00) == addr then some ((data &&& 0x000003FF) ||| addr)
    else none
  else none

/-- Outcome of the armv7 PageTableEntry::set stub: whether the assertion
fired and the (unchanged) entry word. -/
structure SetResult where
  assertFailed : Bool
  data : Nat
  deriving Repr

/-- PageTableEntry::set (PageTableEntry.rpi.cpp): the body is
`uintptr_t value = (uintptr_t)addr; assert(false);` — the assertion fires
for every input and the entry word is never written. -/
def set (data addr : Nat) (write user global : Bool) (level : Nat) :
    SetResult :=
  { assertFailed := true, data := data }

end PageTableEntryRpi

/-- AddressSpace::getPhysicalAddressImpl (AddressSpace.cpp).  The linker
symbols `KERNEL_CODE` and `PHYSICAL_ADDR` and the `isPagingEnabled()` state
are parameters; `s` is the machine state holding the page tables, which the
source never reads (the function walks no tables):
if `virtAddr >= &KERNEL_CODE` it returns `virtAddr - delta` with
`delta = &KERNEL_CODE - &PHYSICAL_ADDR`; else if paging is off it returns
`virtAddr`; otherwise `invalidPtr`. -/
def getPhysicalAddressImpl (kernelCode physicalAddr : Nat) {σ : Type}
    (s : σ) (pagingEnabled : Bool) (virtAddr : Nat) : Nat :=
  if kernelCode ≤ virtAddr then virtAddr - (kernelCode - physicalAddr)
  else if !pagingEnabled then virtAddr
  else invalidPtr

/-- The state of the i386 paging structures: `dir i` is the raw word of
page-directory entry `i`; `mem base i` is the raw word of entry `i` of the
page table whose physical base address is `base`. -/
structure I386State where
  dir : Nat → Nat
  mem : Nat → Nat → Nat

namespace AddressSpaceI386

/-- PageTableBase::isEmpty (AddressSpace.i386.cpp): `data == 0`. -/
def isEmptyW (w : Nat) : Bool := w == 0

/-- PageTableBase::isLargePage (AddressSpace.i386.cpp):
`data & PA_4MBYTE`. -/
def isLargePage (w : Nat) : Bool := w &&& PA_4MBYTE != 0

/-- PageTableBase::getPhysicalAddress (AddressSpace.i386.cpp):
`data & ~(PAGESIZE - 1)`, i.e. `data & 0xFFFFF000` on the 32-bit target. -/
def physAddrW (w : Nat) : Nat := w &&& 0xFFFFF000

/-- PageTableBase::set (AddressSpace.i386.cpp):
`data = (uint32_t)ptr | attributes` — an unconditional store. -/
def setW (ptr attrs : Nat) : Nat := (ptr % 2 ^ 32) ||| attrs

/-- aligned (AddressSpace.i386.cpp): `(x & (PAGESIZE - 1)) == 0`. -/
def aligned (x : Nat) : Bool := x &&& (PAGESIZE - 1) == 0

/-- alignedlarge (AddressSpace.i386.cpp):
`(ptr & (LARGEPAGESIZE - 1)) == 0`. -/
def alignedlarge (x : Nat) : Bool := x &&& (LARGEPAGESIZE - 1) == 0

/-- Outcome of one iteration of the while loop of AddressSpace::map
(AddressSpace.i386.cpp): an assertion halted the kernel, a 4 MiB leaf was
written into the directory, or a 4K entry was written into a page table. -/
inductive StepResult where
  | halted
  | installedLarge (s : I386State)
  | installedSmall (s : I386State)

/-- True exactly on the `installedLarge` outcome. -/
def StepResult.isLargeInstall : StepResult → Bool
  | .installedLarge _ => true
  | _ => false

/-- True exactly on the `installedSmall` outcome. -/
def StepResult.isSmallInstall : StepResult → Bool
  | .installedSmall _ => true
  | _ => false

/-- The attribute word built at the head of AddressSpace::map
(AddressSpace.i386.cpp): `PA_PRESENT`, plus `PA_WRITABLE` when `write`,
plus `PA_RING0` when `user`. -/
def mapAttr (write user : Bool) : Nat :=
  (PA_PRESENT ||| (if write then PA_WRITABLE else 0)) |||
    (if user then PA_RING0 else 0)

/-- One iteration of the while loop of AddressSpace::map
(AddressSpace.i386.cpp, lines 832-858).  `cattr` adds `PA_GLOBAL` when
`virt >= &KERNEL_CODE`.  When the remaining `size` is at least one large
page and `virt` and `phys` are both 4 MiB-aligned, the code asserts that
the directory entry is empty and writes a `PA_4MBYTE` leaf there;
otherwise it asserts that the directory entry is populated, follows it
(`PageDirEntry::operator[]` asserts it is not a large page) and writes the
page-table entry for `virt` unconditionally. -/
def mapStep (kernelCode : Nat) (s : I386State) (virt phys size attr : Nat) :
    StepResult :=
  let cattr := if Nat.ble kernelCode virt then attr ||| PA_GLOBAL else attr
  let dirIndex := (virt % 2 ^ 32) >>> 22
  let dirEntry := s.dir dirIndex
  if Nat.ble LARGEPAGESIZE size && alignedlarge virt && alignedlarge phys then
    if isEmptyW dirEntry then
      .installedLarge { s with
        dir := fun i => if i == dirIndex then setW phys (cattr ||| PA_4MBYTE)
                        else s.dir i }
    else .halted
  else
    if isEmptyW dirEntry then .halted
    else if isLargePage dirEntry then .halted
    else
      let tbase := physAddrW dirEntry
      let tIndex := ((virt % 2 ^ 32) >>> 12) &&& 1023
      .installedSmall { s with
        mem := fun b i => if b == tbase && i == tIndex then setW phys cattr
                          else s.mem b i }

/-- The while loop of AddressSpace::map (AddressSpace.i386.cpp), with an
explicit fuel bounding the iteration count (each iteration consumes at
least one page of `size`, so `fuel = size` always suffices).  Pointer
increments wrap modulo `2 ^ 32` as 32-bit pointer arithmetic does. -/
def mapGo (kernelCode : Nat) (fuel : Nat) (s : I386State)
    (virt phys size attr : Nat) : Option I386State :=
  match fuel with
  | 0 => if size == 0 then some s else none
  | fuel + 1 =>
    if size == 0 then some s
    else
      match mapStep kernelCode s virt phys size attr with
      | .halted => none
      | .installedLarge s2 =>
        mapGo kernelCode fuel s2 ((virt + LARGEPAGESIZE) % 2 ^ 32)
          ((phys + LARGEPAGESIZE) % 2 ^ 32) (size - LARGEPAGESIZE) attr
      | .installedSmall s2 =>
        mapGo kernelCode fuel s2 ((virt + PAGESIZE) % 2 ^ 32)
          ((phys + PAGESIZE) % 2 ^ 32) (size - PAGESIZE) attr

/-- AddressSpace::map (AddressSpace.i386.cpp, lines 821-859).  Asserts
that `size`, `virt` and `phys` are 4K-aligned, builds the attribute word
and runs the per-page loop. -/
def map (kernelCode : Nat) (s : I386State) (virt phys size : Nat)
    (write user : Bool) : Option I386State :=
  if aligned size && aligned virt && aligned phys then
    mapGo kernelCode size s virt phys size (mapAttr write user)
  else none

end AddressSpaceI386

namespace AddressSpaceGen

/-- AddressSpace::ADDRESSBITSPERLEVEL for the armv7 target
(AddressSpace.rpi.cpp): `{12, 8, 0}` — root table indexed by 12 address
bits, one intermediate level of 8 bits, 0 terminates the array. -/
def ADDRESSBITSPERLEVEL : List Nat := [12, 8, 0]

/-- The state of the armv7 paging structures walked by the generic
AddressSpace::map (AddressSpace.cpp): `root i` is the raw word of entry
`i` of the root table (the address-space object itself); `mem base i` is
the raw word of entry `i` of the table at physical base address `base`. -/
structure GenState where
  root : Nat → Nat
  mem : Nat → Nat → Nat

/-- Reads entry `index` of the table designated by `loc` (`none` is the
root table of the address-space object, `some base` a table reached by
following a physical address). -/
def tableAt (s : GenState) : Option Nat → Nat → Nat
  | none, i => s.root i
  | some base, i => s.mem base i

/-- Outcome of the entry-locating while loop of the generic
AddressSpace::map (AddressSpace.cpp, lines 14-29). -/
inductive WalkResult where
  | haltedAllocTodo
  | haltedInvalidEntry
  | leaf (loc : Option Nat) (index level remainingBits : Nat)

/-- The while loop of the generic AddressSpace::map (AddressSpace.cpp,
lines 14-29) over the `ADDRESSBITSPERLEVEL` array.  At each level with a
non-zero bit count it takes the corresponding slice of the address as an
index.  If the next bit count is non-zero the walk must descend: an empty
entry reaches the `TODO: allocate memory for new paging table` branch,
which is `assert(false); halt();` (`haltedAllocTodo`); a populated entry
is followed through `PageTableEntry::getPhysicalAddress`.  When the next
bit count is zero the loop exits and the current entry is the leaf.
`haltedInvalidEntry` models `assert(valid(entry))` failing when the loop
never ran. -/
def walk (s : GenState) (addr : Nat) :
    List Nat → Option Nat → Nat → Nat → WalkResult
  | [], _, _, _ => .haltedInvalidEntry
  | b :: rest, loc, remainingBits, level =>
    if b == 0 then .haltedInvalidEntry
    else
      let remainingBits2 := remainingBits - b
      let index := (addr >>> remainingBits2) &&& (2 ^ b - 1)
      let level2 := level + 1
      match rest with
      | [] => .haltedInvalidEntry
      | b2 :: _ =>
        if b2 == 0 then .leaf loc index level2 remainingBits2
        else if PageTableEntryRpi.isEmpty (tableAt s loc index) then
          .haltedAllocTodo
        else
          walk s addr rest
            (some (PageTableEntryRpi.getPhysicalAddress (tableAt s loc index)))
            remainingBits2 level2

/-- Outcome of one iteration of the `while (size > 0)` loop of the generic
AddressSpace::map: the kernel halted on an assertion, or the leaf was
written and the loop advances by `pageSize` bytes. -/
inductive GenMapOutcome where
  | halted
  | mapped (s2 : GenState) (pageSize : Nat)

/-- One iteration of the generic AddressSpace::map (AddressSpace.cpp,
lines 7-38) for the address `virt`: locate the leaf entry via `walk`,
assert `valid(entry)` and `entry->isEmpty()`, then call
`entry->set(phys, write, user, inKernel(virt), level)` — which on armv7 is
the `assert(false)` stub, so the iteration can also halt there.  On
success the page size is `1 << remainingBits`. -/
def genMapPage (kernelCode : Nat) (s : GenState) (virt phys : Nat)
    (write user : Bool) : GenMapOutcome :=
  match walk s (virt % 2 ^ 32) ADDRESSBITSPERLEVEL none 32 0 with
  | .haltedAllocTodo => .halted
  | .haltedInvalidEntry => .halted
  | .leaf loc index level remainingBits =>
    let w := tableAt s loc index
    if !PageTableEntryRpi.isEmpty w then .halted
    else
      let r := PageTableEntryRpi.set w (phys % 2 ^ 32) write user
        (Nat.ble kernelCode virt) level
      if r.assertFailed then .halted
      else
        .mapped
          (match loc with
           | none => { s with
               root := fun i => if i == index then r.data else s.root i }
           | some base => { s with
               mem := fun b i => if b == base && i == index then r.data
                                 else s.mem b i })
          (2 ^ remainingBits)

end AddressSpaceGen

/-- A paging state for exercising AddressSpace::map on i386: directory
entry 0x100 (covering virtual 0x40000000) holds a present, writable page
table at physical 0x00400000; all page tables are empty. -/
def tableReadyState : I386State :=
  { dir := fun i => if i == 0x100 then 0x00400003 else 0
    mem := fun _ _ => 0 }

/-- A paging state with an already-populated leaf: as `tableReadyState`,
but the page-table entry for virtual 0x40000000 already maps physical
0x00200000 (present and writable). -/
def leafPopulatedState : I386State :=
  { dir := fun i => if i == 0x100 then 0x00400003 else 0
    mem := fun b i => if b == 0x00400000 && i == 0 then 0x00200003 else 0 }

/-- A paging state whose directory entry 0x380 (covering virtual
0xE0000000) is populated with a page table: used to probe the large-page
branch on a conflicting directory entry. -/
def dirPopulatedState : I386State :=
  { dir := fun i => if i == 0x380 then 0x00400003 else 0
    mem := fun _ _ => 0 }

/-- The result of mapping one small page at 0x40000000 to 0x00200000 in
`tableReadyState` (the scenario of spec test S3). -/
def s3MapResult : Option I386State :=
  AddressSpaceI386.map 0xC0000000 tableReadyState 0x40000000 0x00200000
    0x1000 true false

/-- A generic-walker state whose tables are all empty. -/
def emptyGenState : AddressSpaceGen.GenState :=
  { root := fun _ => 0, mem := fun _ _ => 0 }

/-- Oring a word that has set bits only inside `high` over low bits masked
by a `mask` disjoint from `high` leaves the masked low bits unchanged. -/
theorem lowbitsPreserved (mask high data addr : Nat)
    (hdisj : mask &&& high = 0) (haddr : addr &&& high = addr) :
    ((data &&& mask) ||| addr) &&& mask = data &&& mask := by
  apply Nat.eq_of_testBit_eq
  intro i
  have h1 : (mask.testBit i && high.testBit i) = false := by
    have h := congrArg (fun n => n.testBit i) hdisj
    simpa [Nat.testBit_land, Nat.zero_testBit] using h
  have h2 : (addr.testBit i && high.testBit i) = addr.testBit i := by
    have h := congrArg (fun n => n.testBit i) haddr
    simpa [Nat.testBit_land] using h
  simp only [Nat.testBit_land, Nat.testBit_lor]
  cases hm : mask.testBit i <;> cases hh : high.testBit i <;>
    cases ha : addr.testBit i <;> simp_all

/-- A word with bit 0 set is never equal to its own conjunction with the
high mask 0xFFFFF000. -/
theorem orOneAndHighNe (g : Nat) :
    (g ||| 1) &&& 0xFFFFF000 ≠ (g ||| 1) := by
  intro h
  have h0 := congrArg (fun n => n.testBit 0) h
  simp only [Nat.testBit_land, Nat.testBit_lor] at h0
  have e1 : Nat.testBit 1 0 = true := by decide
  have e2 : Nat.testBit 0xFFFFF000 0 = false := by decide
  rw [e1, e2] at h0
  simp at h0

/-- Claim C1: after a successful, aligned, non-conflicting
`map(0x40000000, 0x00200000, 0x1000, writable, kernel)` the page-table
leaf is installed, yet `translate` on the mapped page returns the invalid
sentinel instead of `phys + (v - virt) = 0x00200000`:
`getPhysicalAddressImpl` never walks the page tables. -/
theorem c1_map_then_translate_code_bug :
    (s3MapResult.map fun s => s.mem 0x00400000 0) = some 0x00200003
    ∧ getPhysicalAddressImpl 0xC0000000 0x00100000
        (s3MapResult.getD tableReadyState) true 0x40000000 = invalidPtr
    ∧ invalidPtr ≠ 0x00200000 + (0x40000000 - 0x40000000) :=
  ⟨rfl, by decide, by decide⟩

/-- Claim C2: on a write walk that meets an empty non-terminal entry the
walker does not request a page from an allocator and install a
next-level-table PTE; it reaches the `TODO: allocate memory for new
paging table` branch and halts (`assert(false); halt();`), leaving the
map iteration without effect. -/
theorem c2_walker_todo_halts :
    AddressSpaceGen.walk emptyGenState 0x40000000
      AddressSpaceGen.ADDRESSBITSPERLEVEL none 32 0 =
      AddressSpaceGen.WalkResult.haltedAllocTodo
    ∧ AddressSpaceGen.genMapPage 0xC0000000 emptyGenState 0x40000000
        0x00200000 true false = AddressSpaceGen.GenMapOutcome.halted :=
  ⟨rfl, rfl⟩

/-- Claim C3: a conflicting i386 `map` call onto an already-populated
small-page leaf (previously 0x00200000, now 0x00300000) succeeds and
silently overwrites the leaf: the previously installed mapping is gone,
with no assertion reached on this path. -/
theorem c3_conflict_silent_overwrite :
    leafPopulatedState.mem 0x00400000 0 = 0x00200003
    ∧ ((AddressSpaceI386.map 0xC0000000 leafPopulatedState 0x40000000
        0x00300000 0x1000 true false).map fun s => s.mem 0x00400000 0) =
        some 0x00300003
    ∧ (0x00300003 : Nat) ≠ 0x00200003 :=
  ⟨rfl, rfl, by decide⟩

/-- Claim C4: the i386 `PageTableEntry::set` never populates an entry with
the requested physical address: its `value` variable is initialized from
its own indeterminate contents (`garbage`) rather than from `physAddr`,
and since `PA_PRESENT` is ored in, the assertion
`(value & 0xFFFFF000) == value` fails for every input (and on a non-empty
entry the `isEmpty` assertion fails first). -/
theorem c4_set_never_stores_address (garbage data addr : Nat)
    (write user global : Bool) (level : Nat) :
    PageTableEntryI386.set garbage data addr write user global level =
      none := by
  unfold PageTableEntryI386.set
  by_cases h : PageTableEntryI386.isEmpty data = true
  · have hne : (garbage ||| PA_PRESENT) &&& 0xFFFFF000 ≠
        (garbage ||| PA_PRESENT) := by
      simpa [PA_PRESENT] using orOneAndHighNe garbage
    simp [h, hne]
  · simp [h]

/-- Claim C5 counterexample: with paging not yet enabled, `translate` on
`KERNEL_CODE = 0xC0000000` (canonical constants `PHYSICAL_ADDR =
0x00100000`) returns `0x00100000`, not the identity `0xC0000000`: the
kernel-window shortcut is checked before the paging-off shortcut. -/
theorem c5_counterexample :
    getPhysicalAddressImpl 0xC0000000 0x00100000 (0 : Nat) false
      0xC0000000 = 0x00100000
    ∧ (0x00100000 : Nat) ≠ 0xC0000000 :=
  ⟨by decide, by decide⟩

/-- Claim C5 (amended): with paging not yet enabled, `translate(virt)`
returns `virt` for every virtual address strictly below `KERNEL_CODE`;
addresses at or above `KERNEL_CODE` take the kernel-window shortcut
instead, regardless of the paging state. -/
theorem c5_paging_off_below_window {σ : Type} (s : σ)
    (kernelCode physicalAddr virt : Nat) (h : virt < kernelCode) :
    getPhysicalAddressImpl kernelCode physicalAddr s false virt = virt := by
  unfold getPhysicalAddressImpl
  rw [if_neg (Nat.not_le.mpr h)]
  simp

/-- Claim C5 witness: the amended statement evaluated at a concrete
below-window address. -/
theorem c5_witness :
    getPhysicalAddressImpl 0xC0000000 0x00100000 (0 : Nat) false
      0x00200000 = 0x00200000 :=
  c5_paging_off_below_window (0 : Nat) 0xC0000000 0x00100000 0x00200000
    (by decide)

/-- Claim C6: for every virtual address at or above `KERNEL_CODE`,
`translate` returns `virt - (KERNEL_CODE - PHYSICAL_ADDR)` for any paging
state and any machine state `s` (the tables are never consulted). -/
theorem c6_kernel_window_shortcut {σ : Type} (s : σ)
    (kernelCode physicalAddr : Nat) (pagingEnabled : Bool) (virt : Nat)
    (h : kernelCode ≤ virt) :
    getPhysicalAddressImpl kernelCode physicalAddr s pagingEnabled virt =
      virt - (kernelCode - physicalAddr) := by
  unfold getPhysicalAddressImpl
  rw [if_pos h]

/-- Claim C6 witness: the kernel-window shortcut evaluated at the
canonical constants with the tables of `tableReadyState` present. -/
theorem c6_witness :
    getPhysicalAddressImpl 0xC0000000 0x00100000 tableReadyState true
      0xC0010000 = 0xC0010000 - (0xC0000000 - 0x00100000) :=
  c6_kernel_window_shortcut tableReadyState 0xC0000000 0x00100000 true
    0xC0010000 (by decide)

/-- Claim C7 counterexample: with the remaining size exactly one large
page and both addresses 4 MiB-aligned, no large-page leaf is installed
when the directory entry is already populated — the iteration halts on
`assert(dirEntry.isEmpty())` instead. -/
theorem c7_counterexample :
    (LARGEPAGESIZE ≤ LARGEPAGESIZE
      ∧ AddressSpaceI386.alignedlarge 0xE0000000 = true
      ∧ AddressSpaceI386.alignedlarge 0x40000000 = true)
    ∧ (AddressSpaceI386.mapStep 0xC0000000 dirPopulatedState 0xE0000000
        0x40000000 LARGEPAGESIZE 3).isLargeInstall = false :=
  ⟨⟨le_refl _, by decide, by decide⟩, by decide⟩

/-- Claim C7 (amended): one iteration of the i386 map loop installs a
large-page leaf iff the remaining size is at least one large page, both
addresses are 4 MiB-aligned AND the directory entry is empty; when the
size/alignment condition fails and the directory entry holds a page
table, a small-page entry is installed and the loop advances by one small
page (4096 bytes). -/
theorem c7_large_page_selection (kernelCode : Nat) (s : I386State)
    (virt phys size attr : Nat) :
    ((AddressSpaceI386.mapStep kernelCode s virt phys size
        attr).isLargeInstall = true ↔
      (LARGEPAGESIZE ≤ size ∧ AddressSpaceI386.alignedlarge virt = true
        ∧ AddressSpaceI386.alignedlarge phys = true
        ∧ s.dir ((virt % 2 ^ 32) >>> 22) = 0))
    ∧ ((¬(LARGEPAGESIZE ≤ size
        ∧ AddressSpaceI386.alignedlarge virt = true
        ∧ AddressSpaceI386.alignedlarge phys = true)) →
        s.dir ((virt % 2 ^ 32) >>> 22) ≠ 0 →
        AddressSpaceI386.isLargePage (s.dir ((virt % 2 ^ 32) >>> 22)) =
          false →
        (AddressSpaceI386.mapStep kernelCode s virt phys size
          attr).isSmallInstall = true)
    ∧ (∀ fuel s2, size ≠ 0 →
        AddressSpaceI386.mapStep kernelCode s virt phys size attr =
          AddressSpaceI386.StepResult.installedSmall s2 →
        AddressSpaceI386.mapGo kernelCode (fuel + 1) s virt phys size
          attr =
        AddressSpaceI386.mapGo kernelCode fuel s2
          ((virt + PAGESIZE) % 2 ^ 32) ((phys + PAGESIZE) % 2 ^ 32)
          (size - PAGESIZE) attr) := by
  refine ⟨?_, ?_, ?_⟩
  · constructor
    · intro h
      unfold AddressSpaceI386.mapStep at h
      by_cases hc : (Nat.ble LARGEPAGESIZE size
          && AddressSpaceI386.alignedlarge virt
          && AddressSpaceI386.alignedlarge phys) = true
      · rw [if_pos hc] at h
        simp only [Bool.and_eq_true, Nat.ble_eq] at hc
        by_cases hd : AddressSpaceI386.isEmptyW
            (s.dir ((virt % 2 ^ 32) >>> 22)) = true
        · exact ⟨hc.1.1, hc.1.2, hc.2,
            by simpa [AddressSpaceI386.isEmptyW] using hd⟩
        · rw [if_neg hd] at h
          exact absurd h (by simp [AddressSpaceI386.StepResult.isLargeInstall])
      · rw [if_neg hc] at h
        by_cases hd : AddressSpaceI386.isEmptyW
            (s.dir ((virt % 2 ^ 32) >>> 22)) = true
        · rw [if_pos hd] at h
          exact absurd h (by simp [AddressSpaceI386.StepResult.isLargeInstall])
        · rw [if_neg hd] at h
          by_cases hl : AddressSpaceI386.isLargePage
              (s.dir ((virt % 2 ^ 32) >>> 22)) = true
          · rw [if_pos hl] at h
            exact absurd h
              (by simp [AddressSpaceI386.StepResult.isLargeInstall])
          · rw [if_neg hl] at h
            exact absurd h
              (by simp [AddressSpaceI386.StepResult.isLargeInstall])
    · rintro ⟨h1, h2, h3, h4⟩
      unfold AddressSpaceI386.mapStep
      rw [if_pos (by simp [Nat.ble_eq, h1, h2, h3]),
        if_pos (by simp only [AddressSpaceI386.isEmptyW, beq_iff_eq]; exact h4)]
      rfl
  · intro hc hd hl
    unfold AddressSpaceI386.mapStep
    rw [if_neg (by
      intro hb
      simp only [Bool.and_eq_true, Nat.ble_eq] at hb
      exact hc ⟨hb.1.1, hb.1.2, hb.2⟩)]
    rw [if_neg (by simp only [AddressSpaceI386.isEmptyW, beq_iff_eq]; exact hd),
      if_neg (by simp only [hl]; exact Bool.false_ne_true)]
    rfl
  · intro fuel s2 hsz hstep
    have hz : (size == 0) = false := by
      simpa using hsz
    simp only [AddressSpaceI386.mapGo, hz, Bool.false_eq_true, if_false,
      hstep]

/-- Claim C7 witness: the amended small-page branch evaluated at a
populated directory entry with a sub-large size. -/
theorem c7_witness :
    (AddressSpaceI386.mapStep 0xC0000000 leafPopulatedState 0x40000000
      0x00300000 0x1000 3).isSmallInstall = true :=
  (c7_large_page_selection 0xC0000000 leafPopulatedState 0x40000000
    0x00300000 0x1000 3).2.1 (by decide) (by decide) (by decide)

/-- Claim C8 counterexample: an all-zero i386 page-table entry is empty,
yet `getPhysicalAddress` returns 0 — not the invalid-pointer sentinel. -/
theorem c8_counterexample :
    PageTableEntryI386.isEmpty 0 = true
    ∧ PageTableEntryI386.getPhysicalAddress 0 = 0
    ∧ PageTableEntryI386.getPhysicalAddress 0 ≠ invalidPtr :=
  ⟨by decide, by decide, by decide⟩

/-- Claim C8 (amended): on the ARMv7 encoding an empty entry queried for
its physical address returns the invalid sentinel; on the x86 encoding
`getPhysicalAddress` returns the address field `data & 0xFFFFF000`, which
is never the sentinel (empty or not). -/
theorem c8_empty_query (data : Nat) :
    (PageTableEntryRpi.isEmpty data = true →
      PageTableEntryRpi.getPhysicalAddress data = invalidPtr)
    ∧ PageTableEntryI386.getPhysicalAddress data ≠ invalidPtr := by
  constructor
  · intro h
    unfold PageTableEntryRpi.getPhysicalAddress
    unfold PageTableEntryRpi.isEmpty at h
    have h3 : data &&& PageTableEntryRpi.PA_TYPE_MASK = 0 := by
      simpa [PageTableEntryRpi.PA_INVALID] using h
    rw [h3]
    simp [PageTableEntryRpi.PA_COARSE]
  · intro h
    have h0 := congrArg (fun n => n.testBit 0) h
    unfold PageTableEntryI386.getPhysicalAddress at h0
    simp only [Nat.testBit_land] at h0
    have e2 : Nat.testBit 0xFFFFF000 0 = false := by decide
    have e3 : Nat.testBit invalidPtr 0 = true := by decide
    rw [e2, e3] at h0
    simp at h0

/-- Claim C8 witness: the amended statement evaluated on an empty ARMv7
entry and an arbitrary x86 entry. -/
theorem c8_witness :
    PageTableEntryRpi.getPhysicalAddress 0 = invalidPtr
    ∧ PageTableEntryI386.getPhysicalAddress 5 ≠ invalidPtr :=
  ⟨(c8_empty_query 0).1 (by decide), (c8_empty_query 5).2⟩

/-- Claim C9: whenever `setPhysicalAddress` completes (its non-empty and
alignment assertions pass), the attribute bits — the low 12 bits on x86,
the low 10 bits of a coarse entry on ARMv7 — are unchanged. -/
theorem c9_preserves_attributes (data addr d2 : Nat) :
    (PageTableEntryI386.setPhysicalAddress data addr = some d2 →
      d2 &&& 0x00000FFF = data &&& 0x00000FFF)
    ∧ (PageTableEntryRpi.setPhysicalAddress data addr = some d2 →
      d2 &&& 0x000003FF = data &&& 0x000003FF) := by
  constructor
  · intro h
    unfold PageTableEntryI386.setPhysicalAddress at h
    by_cases he : PageTableEntryI386.isEmpty data = true
    · rw [if_pos he] at h
      exact absurd h (by simp)
    · rw [if_neg he] at h
      by_cases ha : ((addr &&& 0xFFFFF000) == addr) = true
      · rw [if_pos ha] at h
        have hd : (data &&& 0x00000FFF) ||| addr = d2 := by simpa using h
        rw [← hd]
        exact lowbitsPreserved 0x00000FFF 0xFFFFF000 data addr (by decide)
          (by simpa using ha)
      · rw [if_neg ha] at h
        exact absurd h (by simp)
  · intro h
    unfold PageTableEntryRpi.setPhysicalAddress at h
    by_cases ht : ((data &&& PageTableEntryRpi.PA_TYPE_MASK) ==
        PageTableEntryRpi.PA_COARSE) = true
    · rw [if_pos ht] at h
      by_cases ha : ((addr &&& 0xFFFFFC00) == addr) = true
      · rw [if_pos ha] at h
        have hd : (data &&& 0x000003FF) ||| addr = d2 := by simpa using h
        rw [← hd]
        exact lowbitsPreserved 0x000003FF 0xFFFFFC00 data addr (by decide)
          (by simpa using ha)
      · rw [if_neg ha] at h
        exact absurd h (by simp)
    · rw [if_neg ht] at h
      exact absurd h (by simp)

/-- Claim C9 witness: attribute preservation evaluated on a concrete
writable-present x86 entry and a concrete coarse ARMv7 entry. -/
theorem c9_witness :
    PageTableEntryI386.setPhysicalAddress 3 0x5000 = some 0x5003
    ∧ (0x5003 : Nat) &&& 0x00000FFF = 3 &&& 0x00000FFF
    ∧ PageTableEntryRpi.setPhysicalAddress 0x209 0x8000 = some 0x8209
    ∧ (0x8209 : Nat) &&& 0x000003FF = 0x209 &&& 0x000003FF :=
  ⟨by decide, (c9_preserves_attributes 3 0x5000 0x5003).1 (by decide),
    by decide, (c9_preserves_attributes 0x209 0x8000 0x8209).2 (by decide)⟩

/-- Claim C10: the ARMv7 `PageTableEntry::set` fails its `assert(false)`
for every input and never writes the entry word. -/
theorem c10_rpi_set_always_asserts (data addr : Nat)
    (write user global : Bool) (level : Nat) :
    (PageTableEntryRpi.set data addr write user global level).assertFailed =
      true
    ∧ (PageTableEntryRpi.set data addr write user global level).data =
      data :=
  ⟨rfl, rfl⟩

end GraetzOS
